import Mathlib

/-!
Verification of the job-board backend (Express + Mongoose) against its
specification. The definitions below are a shallow embedding of the source:

* `models/Jobs.js`, `models/Users.js`   → `Job`, `User`
* `controllers/jobController.js`        → `getAllJob`, `postJob`, `updateJob`
* `controllers/userController.js`       → `signin`, `getUsers`
* `middleware/authMiddleware.js`        → `protect`

External collaborators (the document store, bcrypt, jsonwebtoken, the mail
transport) are modelled as explicit parameters or as the list standing for
the collection, exactly at the call boundaries the code uses.
-/

namespace JobBoard

/-- Job document, from the schema in models/Jobs.js: title required,
company/location/salary optional, createdAt a date with default Date.now.
Dates are epoch milliseconds; `id` stands for the Mongo `_id`. -/
structure Job where
  id : Nat
  title : String
  company : Option String
  location : Option String
  salary : Option Int
  createdAt : Nat
deriving Repr, DecidableEq

/-- User document, from models/Users.js: name, email, stored password hash,
role (enum employer/admin/employee, default employee). -/
structure User where
  id : Nat
  name : String
  email : String
  password : String
  role : String
deriving Repr, DecidableEq

/-! JavaScript `parseInt` on a query-string value: skip leading whitespace,
read an optional sign and then the longest digit prefix; no digits means NaN,
modelled as `none`. -/

def skipWs : List Char → List Char
  | [] => []
  | c :: cs => if c = ' ' ∨ c = '\t' ∨ c = '\n' ∨ c = '\r' then skipWs cs else c :: cs

def leadingDigits : List Char → List Char
  | [] => []
  | c :: cs => if c.isDigit then c :: leadingDigits cs else []

def digitsToNat (ds : List Char) : Nat :=
  ds.foldl (fun a c => a * 10 + (c.toNat - 48)) 0

def parseIntJS (s : String) : Option Int :=
  match skipWs s.toList with
  | '-' :: rest =>
      let d := leadingDigits rest
      if d.isEmpty then none else some (-(digitsToNat d : Int))
  | '+' :: rest =>
      let d := leadingDigits rest
      if d.isEmpty then none else some ((digitsToNat d : Int))
  | cs =>
      let d := leadingDigits cs
      if d.isEmpty then none else some ((digitsToNat d : Int))

/-- JavaScript `x || d` for a number `x`: NaN (and the absent value) and 0 are
falsy and give the default. -/
def jsOrInt (v : Option Int) (d : Int) : Int :=
  match v with
  | none => d
  | some n => if n = 0 then d else n

/-- Query-string parameters of GET /api/jobs, each absent or a raw string. -/
structure ListQuery where
  location : Option String := none
  search : Option String := none
  sort : Option String := none
  page : Option String := none
  limit : Option String := none
deriving Repr, DecidableEq

/-- JavaScript truthiness of an optional string: the empty string is falsy. -/
def truthyStr : Option String → Option String
  | none => none
  | some s => if s = "" then none else some s

/-- `if (req.query.location) filter.location = req.query.location`. -/
def effLocation (q : ListQuery) : Option String := truthyStr q.location

/-- `const search = req.query.search || ""`. -/
def effSearch (q : ListQuery) : String := (truthyStr q.search).getD ""

/-- `const sortBy = req.query.sort || '-createdAt'`. -/
def effSort (q : ListQuery) : String := (truthyStr q.sort).getD "-createdAt"

/-- `const page = parseInt(req.query.page) || 1` (an absent parameter parses to NaN). -/
def effPage (q : ListQuery) : Int := jsOrInt (q.page.bind parseIntJS) 1

/-- `const limit = parseInt(req.query.limit) || 3`. -/
def effLimit (q : ListQuery) : Int := jsOrInt (q.limit.bind parseIntJS) 3

def lowerList (s : String) : List Char := s.toList.map Char.toLower

def isInfixB (p : List Char) : List Char → Bool
  | [] => p.isEmpty
  | c :: cs => p.isPrefixOf (c :: cs) || isInfixB p cs

/-- Case-insensitive match of the title filter `title: \x7b $regex: search, $options: "i" \x7d`
against a stored title. Faithful to the engine for patterns free of regex
metacharacters (substring semantics); in particular the empty pattern matches
every string, as the engine's empty regex does. -/
def titleSearchMatch (search title : String) : Bool :=
  isInfixB (lowerList search) (lowerList title)

/-- The find() filter of getAllJob: exact-match location (when the parameter is
truthy) AND the title search pattern, which is always present. -/
def matchesFilter (q : ListQuery) (j : Job) : Bool :=
  (match effLocation q with
   | none => true
   | some l => j.location == some l)
  && titleSearchMatch (effSearch q) j.title

/-- Sort key of a document field, in the engine's comparison order:
missing/null sorts below numbers, numbers below strings. -/
inductive SortKey where
  | missing
  | num (n : Int)
  | str (s : String)
deriving Repr, DecidableEq

def keyLe : SortKey → SortKey → Bool
  | .missing, _ => true
  | .num _, .missing => false
  | .num a, .num b => decide (a ≤ b)
  | .num _, .str _ => true
  | .str _, .missing => false
  | .str _, .num _ => false
  | .str a, .str b => !(decide (b < a))

def fieldKey (field : String) (j : Job) : SortKey :=
  if field = "title" then .str j.title
  else if field = "company" then (match j.company with | some c => .str c | none => .missing)
  else if field = "location" then (match j.location with | some l => .str l | none => .missing)
  else if field = "salary" then (match j.salary with | some s => .num s | none => .missing)
  else if field = "createdAt" then .num (j.createdAt : Int)
  else .missing

/-- `.sort(sortBy)`: a leading '-' marks descending on the named field. -/
def sortSpec (sortBy : String) : String × Bool :=
  match sortBy.toList with
  | '-' :: rest => (String.mk rest, true)
  | _ => (sortBy, false)

def insertOrd (le : Job → Job → Bool) (j : Job) : List Job → List Job
  | [] => [j]
  | x :: xs => if le x j then x :: insertOrd le j xs else j :: x :: xs

def insertionSort (le : Job → Job → Bool) : List Job → List Job
  | [] => []
  | j :: js => insertOrd le j (insertionSort le js)

def sortJobs (sortBy : String) (js : List Job) : List Job :=
  let fd := sortSpec sortBy
  insertionSort
    (fun a b =>
      if fd.2 then keyLe (fieldKey fd.1 b) (fieldKey fd.1 a)
      else keyLe (fieldKey fd.1 a) (fieldKey fd.1 b))
    js

/-- `.skip(skip).limit(limit)` on the sorted result list: the engine rejects a
negative skip; limit 0 means no limit; a negative limit caps at its absolute
value (single batch). -/
def applySkipLimit (skip l : Int) (js : List Job) : Except String (List Job) :=
  if skip < 0 then Except.error "Skip value must be non-negative"
  else if l = 0 then Except.ok (js.drop skip.toNat)
  else Except.ok ((js.drop skip.toNat).take l.natAbs)

/-- Response envelope of getAllJob. -/
structure ListResponse where
  success : Bool
  total : Nat
  page : Int
  limit : Int
  skip : Int
  data : List Job
deriving Repr, DecidableEq

/-- getAllJob (controllers/jobController.js): build the filter, run the
filtered, sorted, paged query, and report `total` from `countDocuments()` —
which the code calls with NO argument, so it counts the whole collection,
not the filtered one. A query-layer fault (e.g. negative skip) is passed to
`next(error)`, modelled as `Except.error`. -/
def getAllJob (store : List Job) (q : ListQuery) : Except String ListResponse :=
  match applySkipLimit ((effPage q - 1) * effLimit q) (effLimit q)
      (sortJobs (effSort q) (store.filter (matchesFilter q))) with
  | Except.error e => Except.error e
  | Except.ok jobs =>
      Except.ok { success := true, total := store.length, page := effPage q,
                  limit := effLimit q, skip := (effPage q - 1) * effLimit q,
                  data := jobs }

/-- Number of job records matching the same filter predicate as the page query
(what the spec requires `total` to be). -/
def filteredCount (store : List Job) (q : ListQuery) : Nat :=
  (store.filter (matchesFilter q)).length

/-! Job creation and update (controllers/jobController.js, models/Jobs.js). -/

/-- Request body of POST /api/jobs as Jobs.create receives it; every schema
path may be supplied or absent. -/
structure JobBody where
  title : Option String := none
  company : Option String := none
  location : Option String := none
  salary : Option Int := none
  createdAt : Option Nat := none
deriving Repr, DecidableEq

/-- `Jobs.create(req.body)`: mongoose runs the schema validators — `required`
on a String path rejects an absent, null or empty title — and applies the
`default: Date.now` only when the body does not supply createdAt; a supplied
createdAt is cast and stored as given. `now` is the server clock at insert
time, `nextId` the fresh `_id`. -/
def createJob (now nextId : Nat) (b : JobBody) : Except String Job :=
  match b.title with
  | none => Except.error "Jobs validation failed: title: Path title is required."
  | some t =>
      if t = "" then Except.error "Jobs validation failed: title: Path title is required."
      else Except.ok { id := nextId, title := t, company := b.company,
                       location := b.location, salary := b.salary,
                       createdAt := b.createdAt.getD now }

/-- HTTP outcome of a job mutation handler: `res.status(s).json(job)` or
`res.status(s).json(\x7b error \x7d)`. -/
inductive HttpOutcome where
  | ok (status : Nat) (job : Job)
  | err (status : Nat) (message : String)
deriving Repr, DecidableEq

/-- The `for (let employee of employees) \x7b await transporter.sendMail(...) \x7d`
loop: each send is awaited in order; the first rejection aborts the loop and
throws. -/
def sendAll (send : String → Except String Unit) : List User → Except String Unit
  | [] => Except.ok ()
  | u :: us =>
      match send u.email with
      | Except.error e => Except.error e
      | Except.ok _ => sendAll send us

/-- postJob: create the job, look up the employee-role users, then await one
sendMail per employee inside the same try block; any throw — including a mail
transport failure occurring after the insert — falls to the catch, which
responds `400 \x7b error: error.message \x7d`. Template rendering (fs read and
placeholder substitution) only builds the message body handed to the
transport and cannot change the control flow modelled here; the transport is
the `send` parameter, keyed by recipient email. -/
def postJob (now nextId : Nat) (users : List User)
    (send : String → Except String Unit) (store : List Job) (b : JobBody) :
    List Job × HttpOutcome :=
  match createJob now nextId b with
  | Except.error e => (store, HttpOutcome.err 400 e)
  | Except.ok job =>
      match sendAll send (users.filter (fun u => u.role == "employee")) with
      | Except.error e => (store ++ [job], HttpOutcome.err 400 e)
      | Except.ok _ => (store ++ [job], HttpOutcome.ok 201 job)

/-- Request body of PUT /api/jobs/:id. -/
structure UpdateBody where
  title : Option String := none
  company : Option String := none
  location : Option String := none
  salary : Option Int := none
  createdAt : Option Nat := none
deriving Repr, DecidableEq

/-- The document merge performed by
`findByIdAndUpdate(id, req.body, \x7b new: true \x7d)`: every supplied body field
is $set on the document. Update validators are NOT run (mongoose default), so
the required/non-empty check on title is not re-applied, and createdAt is an
ordinary settable path. -/
def applyUpdate (b : UpdateBody) (j : Job) : Job :=
  { id := j.id
    title := b.title.getD j.title
    company := (match b.company with | some c => some c | none => j.company)
    location := (match b.location with | some l => some l | none => j.location)
    salary := (match b.salary with | some s => some s | none => j.salary)
    createdAt := b.createdAt.getD j.createdAt }

/-- updateJob (controllers/jobController.js): find by id, 404 when absent,
otherwise merge the body and return the updated document (`new: true`). -/
def updateJob (store : List Job) (id : Nat) (b : UpdateBody) :
    List Job × HttpOutcome :=
  match store.find? (fun j => j.id == id) with
  | none => (store, HttpOutcome.err 404 "Job not found")
  | some j =>
      (store.map (fun x => if x.id == id then applyUpdate b j else x),
       HttpOutcome.ok 200 (applyUpdate b j))

/-! Credential service (controllers/userController.js). -/

/-- Outcome of POST /api/users/signin. -/
inductive SigninOutcome where
  | failure (status : Nat) (message : String)
  | success (token : String) (message : String)
deriving Repr, DecidableEq

/-- signin: `User.findOne(\x7b email \x7d)`; an unknown email answers
`400 "Invalid Credentials"`; a known email whose stored hash fails
`bcrypt.compare` answers `400 "Invalid Password"`; success signs a token over
(userId, email). `verify` is bcrypt.compare, `sign` is jwt.sign. -/
def signin (users : List User) (verify : String → String → Bool)
    (sign : Nat → String → String) (email password : String) : SigninOutcome :=
  match users.find? (fun u => u.email == email) with
  | none => SigninOutcome.failure 400 "Invalid Credentials"
  | some u =>
      if verify password u.password then
        SigninOutcome.success (sign u.id u.email) "Login Successful"
      else SigninOutcome.failure 400 "Invalid Password"

/-- Serialization of a full account document as `res.json` emits it for a
document produced by `User.find()` with no projection: every stored field,
the password hash included. -/
def userJson (u : User) : List (String × String) :=
  [("_id", toString u.id), ("name", u.name), ("email", u.email),
   ("password", u.password), ("role", u.role)]

/-- getUsers (controllers/userController.js): `User.find()` — no `.select`
projection — serialized by `res.json(users)`. -/
def getUsers (users : List User) : List (List (String × String)) :=
  users.map userJson

/-! Authentication middleware (middleware/authMiddleware.js). -/

/-- Claims carried by a verified token, as signed by signin. -/
structure TokenClaims where
  userId : Nat
  email : String
deriving Repr, DecidableEq

/-- Account as resolved by `User.findById(decoded.userId).select("-password")`:
the password field is excluded from the projection. -/
structure SafeUser where
  id : Nat
  name : String
  email : String
  role : String
deriving Repr, DecidableEq

def stripPassword (u : User) : SafeUser :=
  { id := u.id, name := u.name, email := u.email, role := u.role }

/-- Outcome of an Express middleware: an own response (reject), `next()` with
the resolved user attached (proceed), or `next(error)` handing the fault to
the process-wide 500 handler (escalate). -/
inductive ProtectOutcome where
  | reject (status : Nat) (message : String) (errorDetail : Option String)
  | proceed (user : SafeUser)
  | escalate (message : String)
deriving Repr, DecidableEq

/-- JavaScript `String.prototype.startsWith`. -/
def jsStartsWith (p s : String) : Bool := p.toList.isPrefixOf s.toList

def splitSpaceAux (cur : List Char) : List Char → List (List Char)
  | [] => [cur.reverse]
  | c :: cs => if c = ' ' then cur.reverse :: splitSpaceAux [] cs else splitSpaceAux (c :: cur) cs

/-- JavaScript `s.split(" ")`: cut at every single space character. -/
def jsSplitSpace (s : String) : List String :=
  (splitSpaceAux [] s.toList).map String.mk

/-- `jwt.verify(token, SECRET_KEY)` where token is `authHeader.split(" ")[1]`:
when the header has no second whitespace-separated part the token is
undefined and verification throws. -/
def verifyOptToken (verify : String → Except String TokenClaims) :
    Option String → Except String TokenClaims
  | none => Except.error "jwt must be provided"
  | some t => verify t

/-- protect: the whole body sits in one try/catch. A falsy or non-"Bearer"-
prefixed Authorization header answers 401 "Unauthorized. Not A Valid Token";
any throw from token verification or the account lookup is caught and
answers `401 \x7b message: "No token found", error: error.message \x7d`; a token
whose subject resolves to no account answers 401 "User not found"; otherwise
the projected account is attached and `next()` runs. `findById` may itself
fault (store error), modelled by its `Except` result. -/
def lookupOutcome : Except String (Option User) → ProtectOutcome
  | Except.error e => ProtectOutcome.reject 401 "No token found" (some e)
  | Except.ok none => ProtectOutcome.reject 401 "User not found" none
  | Except.ok (some u) => ProtectOutcome.proceed (stripPassword u)

def verifyOutcome (findById : Nat → Except String (Option User)) :
    Except String TokenClaims → ProtectOutcome
  | Except.error e => ProtectOutcome.reject 401 "No token found" (some e)
  | Except.ok claims => lookupOutcome (findById claims.userId)

def protect (verify : String → Except String TokenClaims)
    (findById : Nat → Except String (Option User))
    (authHeader : Option String) : ProtectOutcome :=
  match authHeader with
  | none => ProtectOutcome.reject 401 "Unauthorized. Not A Valid Token" none
  | some h =>
      if h = "" ∨ ¬ (jsStartsWith "Bearer" h) then
        ProtectOutcome.reject 401 "Unauthorized. Not A Valid Token" none
      else
        verifyOutcome findById (verifyOptToken verify (jsSplitSpace h)[1]?)

/-! Concrete fixtures used to evaluate the handlers. -/

def jRemote : Job :=
  { id := 1, title := "Dev", company := some "Acme", location := some "Remote",
    salary := some 10, createdAt := 100 }

def jOffice : Job :=
  { id := 2, title := "Dev", company := some "Beta", location := some "Office",
    salary := some 20, createdAt := 200 }

def qRemote : ListQuery := { location := some "Remote" }

def qNegLimit : ListQuery := { limit := some "-2" }

def qEmptySearch : ListQuery := { search := some "" }

def aliceUser : User :=
  { id := 1, name := "Alice", email := "alice@x.com", password := "HASH",
    role := "employee" }

def verifyStub : String → String → Bool := fun p h => p == "secret" && h == "HASH"

def signStub : Nat → String → String := fun _ _ => "tok"

def jobDev : Job :=
  { id := 1, title := "Dev", company := none, location := none, salary := none,
    createdAt := 100 }

def failingSend : String → Except String Unit := fun _ => Except.error "transport down"

def badVerify : String → Except String TokenClaims := fun _ => Except.error "jwt malformed"

def noUserDb : Nat → Except String (Option User) := fun _ => Except.ok none

def downDb : Nat → Except String (Option User) := fun _ => Except.error "db down"

def okVerify : String → Except String TokenClaims :=
  fun _ => Except.ok { userId := 1, email := "alice@x.com" }

/-- Modelled from the spec: the same listing query with only the location
filter applied and no title constraint — the behavior the spec requires of an
empty or absent search term. Compared against `getAllJob` below. -/
def locationOnlyMatch (q : ListQuery) (j : Job) : Bool :=
  match effLocation q with
  | none => true
  | some l => j.location == some l

def getAllJobLocationOnly (store : List Job) (q : ListQuery) : Except String ListResponse :=
  match applySkipLimit ((effPage q - 1) * effLimit q) (effLimit q)
      (sortJobs (effSort q) (store.filter (locationOnlyMatch q))) with
  | Except.error e => Except.error e
  | Except.ok jobs =>
      Except.ok { success := true, total := store.length, page := effPage q,
                  limit := effLimit q, skip := (effPage q - 1) * effLimit q,
                  data := jobs }

/-- Response of `getAllJob [] \x7b\x7d` (empty store, no parameters). -/
def emptyOkResponse : ListResponse :=
  { success := true, total := 0, page := 1, limit := 3, skip := 0, data := [] }

/-- The job stored when a client supplies its own createdAt = 12345 to postJob. -/
def clientStampJob : Job :=
  { id := 1, title := "Dev", company := none, location := none, salary := none,
    createdAt := 12345 }

/-- The job stored by createJob at server time 5 with a body omitting createdAt. -/
def defaultStampJob : Job :=
  { id := 1, title := "Dev", company := none, location := none, salary := none,
    createdAt := 5 }

/-! Helper lemmas about the embedded query pipeline. -/

theorem isInfixB_nil (l : List Char) : isInfixB [] l = true := by
  cases l <;> simp [isInfixB, List.isPrefixOf]

theorem applySkipLimit_ok_length (skip l : Int) (js jobs : List Job)
    (h : applySkipLimit skip l js = Except.ok jobs) (hl : 0 < l) :
    (jobs.length : Int) ≤ l := by
  unfold applySkipLimit at h
  by_cases hs : skip < 0
  · rw [if_pos hs] at h
    exact Except.noConfusion h
  · rw [if_neg hs] at h
    by_cases hz : l = 0
    · omega
    · rw [if_neg hz] at h
      obtain rfl := Except.ok.inj h
      have hlen : ((js.drop skip.toNat).take l.natAbs).length ≤ l.natAbs :=
        List.length_take_le _ _
      omega

theorem applySkipLimit_nonneg_ok (skip l : Int) (js : List Job) (h : 0 ≤ skip) :
    ∃ jobs, applySkipLimit skip l js = Except.ok jobs := by
  unfold applySkipLimit
  rw [if_neg (by omega)]
  by_cases hz : l = 0
  · rw [if_pos hz]; exact ⟨_, rfl⟩
  · rw [if_neg hz]; exact ⟨_, rfl⟩

theorem protect_outcome (verify : String → Except String TokenClaims)
    (findById : Nat → Except String (Option User)) (authHeader : Option String) :
    (∃ u, protect verify findById authHeader = ProtectOutcome.proceed u)
    ∨ (∃ m d, protect verify findById authHeader = ProtectOutcome.reject 401 m d) := by
  cases authHeader with
  | none => exact Or.inr ⟨_, _, rfl⟩
  | some h =>
      simp only [protect]
      by_cases hb : h = "" ∨ ¬ jsStartsWith "Bearer" h
      · rw [if_pos hb]; exact Or.inr ⟨_, _, rfl⟩
      · rw [if_neg hb]
        cases hv : verifyOptToken verify (jsSplitSpace h)[1]? with
        | error e => exact Or.inr ⟨_, _, rfl⟩
        | ok claims =>
            simp only [verifyOutcome]
            cases hf : findById claims.userId with
            | error e => exact Or.inr ⟨_, _, rfl⟩
            | ok ou =>
                cases ou with
                | none => exact Or.inr ⟨_, _, rfl⟩
                | some u => exact Or.inl ⟨_, rfl⟩

/-! Claim theorems. -/

/-- C1: the claim requires `total` to equal the number of records matching the
page query's filter. The code computes `countDocuments()` with no filter, so
at a two-job store (one Remote, one Office) queried with location = "Remote"
the response reports total = 2 while exactly 1 record matches the filter. -/
theorem c1_total_is_unfiltered_count :
    getAllJob [jRemote, jOffice] qRemote
      = Except.ok { success := true, total := 2, page := 1, limit := 3, skip := 0,
                    data := [jRemote] }
    ∧ filteredCount [jRemote, jOffice] qRemote = 1
    ∧ (2 : Nat) ≠ 1 :=
  ⟨rfl, rfl, by decide⟩

/-- C2: the claim requires the identical generic invalid-credentials message
for an unknown email and for a wrong password. The code answers
"Invalid Credentials" for the former and "Invalid Password" for the latter:
both 400, but distinguishable messages. -/
theorem c2_login_failure_messages_differ :
    signin [aliceUser] verifyStub signStub "bob@x.com" "whatever"
      = SigninOutcome.failure 400 "Invalid Credentials"
    ∧ signin [aliceUser] verifyStub signStub "alice@x.com" "wrong"
      = SigninOutcome.failure 400 "Invalid Password"
    ∧ "Invalid Credentials" ≠ "Invalid Password" :=
  ⟨rfl, rfl, by decide⟩

/-- C3 counterexample: protect answers 401 in every failure mode, but with
three distinct messages — and the catch branch attaches the verifier's own
error text, revealing the cause. The claim of a single generic message is
false. -/
theorem c3_counterexample_distinct_messages :
    protect badVerify noUserDb none
      = ProtectOutcome.reject 401 "Unauthorized. Not A Valid Token" none
    ∧ protect badVerify noUserDb (some "Bearer abc")
      = ProtectOutcome.reject 401 "No token found" (some "jwt malformed")
    ∧ protect okVerify noUserDb (some "Bearer abc")
      = ProtectOutcome.reject 401 "User not found" none
    ∧ "Unauthorized. Not A Valid Token" ≠ "No token found"
    ∧ "No token found" ≠ "User not found" :=
  ⟨rfl, rfl, rfl, by decide, by decide⟩

/-- C3 amended: every rejection by protect carries status 401, but the message
identifies the failure mode: a missing header, and likewise a present falsy or
non-Bearer-prefixed header, answers "Unauthorized. Not A Valid Token"; a
token-verification fault, and likewise an account-lookup fault, answers
"No token found" with the fault's own text attached; a token whose subject
resolves to no account answers "User not found". -/
theorem c3_amended_reject_always_401_but_distinct (verify : String → Except String TokenClaims)
    (findById : Nat → Except String (Option User)) (authHeader : Option String) :
    (∀ s m d, protect verify findById authHeader = ProtectOutcome.reject s m d → s = 401)
    ∧ (authHeader = none →
        protect verify findById authHeader
          = ProtectOutcome.reject 401 "Unauthorized. Not A Valid Token" none)
    ∧ (∀ h, authHeader = some h → (h = "" ∨ jsStartsWith "Bearer" h = false) →
        protect verify findById authHeader
          = ProtectOutcome.reject 401 "Unauthorized. Not A Valid Token" none)
    ∧ (∀ h e, authHeader = some h → h ≠ "" → jsStartsWith "Bearer" h = true →
        verifyOptToken verify (jsSplitSpace h)[1]? = Except.error e →
        protect verify findById authHeader
          = ProtectOutcome.reject 401 "No token found" (some e))
    ∧ (∀ h claims e, authHeader = some h → h ≠ "" → jsStartsWith "Bearer" h = true →
        verifyOptToken verify (jsSplitSpace h)[1]? = Except.ok claims →
        findById claims.userId = Except.error e →
        protect verify findById authHeader
          = ProtectOutcome.reject 401 "No token found" (some e))
    ∧ (∀ h claims, authHeader = some h → h ≠ "" → jsStartsWith "Bearer" h = true →
        verifyOptToken verify (jsSplitSpace h)[1]? = Except.ok claims →
        findById claims.userId = Except.ok none →
        protect verify findById authHeader
          = ProtectOutcome.reject 401 "User not found" none) := by
  refine ⟨?_, ?_, ?_, ?_, ?_, ?_⟩
  · intro s m d heq
    rcases protect_outcome verify findById authHeader with ⟨u, hu⟩ | ⟨m', d', hr⟩
    · rw [hu] at heq; exact ProtectOutcome.noConfusion heq
    · rw [hr] at heq
      exact (ProtectOutcome.reject.inj heq.symm).1
  · intro ha; subst ha; rfl
  · intro h ha hbad
    subst ha
    simp only [protect]
    have hc : h = "" ∨ ¬ jsStartsWith "Bearer" h = true := by
      rcases hbad with hbad | hbad
      · exact Or.inl hbad
      · exact Or.inr (by simp [hbad])
    rw [if_pos hc]
  · intro h e ha hne hbear hv
    subst ha
    simp only [protect]
    rw [if_neg (by simp [hne, hbear])]
    rw [hv]
    rfl
  · intro h claims e ha hne hbear hv hf
    subst ha
    simp only [protect]
    rw [if_neg (by simp [hne, hbear])]
    rw [hv]
    simp only [verifyOutcome]
    rw [hf]
    rfl
  · intro h claims ha hne hbear hv hf
    subst ha
    simp only [protect]
    rw [if_neg (by simp [hne, hbear])]
    rw [hv]
    simp only [verifyOutcome]
    rw [hf]
    rfl

/-- C3 witness: the amended theorem applied to a request with no header, to a
present non-Bearer header, to a verification fault, to a store-lookup fault,
and to an unresolvable token subject. -/
theorem c3_amended_witness :
    (protect badVerify noUserDb none
      = ProtectOutcome.reject 401 "Unauthorized. Not A Valid Token" none)
    ∧ (protect badVerify noUserDb (some "Token abc")
      = ProtectOutcome.reject 401 "Unauthorized. Not A Valid Token" none)
    ∧ (protect badVerify noUserDb (some "Bearer abc")
      = ProtectOutcome.reject 401 "No token found" (some "jwt malformed"))
    ∧ (protect okVerify downDb (some "Bearer abc")
      = ProtectOutcome.reject 401 "No token found" (some "db down"))
    ∧ (protect okVerify noUserDb (some "Bearer abc")
      = ProtectOutcome.reject 401 "User not found" none) :=
  ⟨(c3_amended_reject_always_401_but_distinct badVerify noUserDb none).2.1 rfl,
   (c3_amended_reject_always_401_but_distinct badVerify noUserDb
      (some "Token abc")).2.2.1 "Token abc" rfl (Or.inr (by decide)),
   (c3_amended_reject_always_401_but_distinct badVerify noUserDb
      (some "Bearer abc")).2.2.2.1 "Bearer abc" "jwt malformed" rfl (by decide) (by decide) rfl,
   (c3_amended_reject_always_401_but_distinct okVerify downDb
      (some "Bearer abc")).2.2.2.2.1 "Bearer abc" { userId := 1, email := "alice@x.com" }
      "db down" rfl (by decide) (by decide) rfl rfl,
   (c3_amended_reject_always_401_but_distinct okVerify noUserDb
      (some "Bearer abc")).2.2.2.2.2 "Bearer abc" { userId := 1, email := "alice@x.com" }
      rfl (by decide) (by decide) rfl rfl⟩

/-- C4 counterexample: getUsers serializes `User.find()` with no projection, so
the returned array carries the stored password hash; the claimed exclusion of
the credential field is false. -/
theorem c4_counterexample_password_returned :
    getUsers [aliceUser]
      = [[("_id", "1"), ("name", "Alice"), ("email", "alice@x.com"),
          ("password", "HASH"), ("role", "employee")]]
    ∧ ("password", "HASH") ∈ userJson aliceUser :=
  ⟨rfl, by decide⟩

/-- C4 amended: every account in the array returned by getUsers is serialized
with all stored fields, the password hash included — no credential exclusion
is applied in the listing. -/
theorem c4_amended_password_included (users : List User) (u : User) (h : u ∈ users) :
    userJson u ∈ getUsers users ∧ ("password", u.password) ∈ userJson u :=
  ⟨List.mem_map_of_mem _ h, by simp [userJson]⟩

/-- C4 witness: the amended theorem at the one-account store. -/
theorem c4_amended_witness :
    userJson aliceUser ∈ getUsers [aliceUser]
    ∧ ("password", aliceUser.password) ∈ userJson aliceUser :=
  c4_amended_password_included [aliceUser] aliceUser (by decide)

/-- C5 counterexample: with limit = "-2" (numeric, so not defaulted) the
response has data.length = 1 and limit = -2, so data.length <= limit fails;
the claim quantified over every listing request is false. -/
theorem c5_counterexample_negative_limit :
    getAllJob [jRemote] qNegLimit
      = Except.ok { success := true, total := 1, page := 1, limit := -2, skip := 0,
                    data := [jRemote] }
    ∧ ¬ ((1 : Int) ≤ -2) :=
  ⟨rfl, by decide⟩

/-- C5 amended: every successful listing response satisfies
skip = (page - 1) * limit, and data.length <= limit whenever the effective
limit is positive; page defaults to 1 and limit to 3 whenever the parameter
is missing or non-numeric. (A numeric negative limit is used as-is, which is
what breaks the unconditional bound.) -/
theorem c5_amended_pagination (store : List Job) (q : ListQuery) (r : ListResponse)
    (h : getAllJob store q = Except.ok r) :
    r.page = effPage q ∧ r.limit = effLimit q
    ∧ r.skip = (r.page - 1) * r.limit
    ∧ (0 < r.limit → (r.data.length : Int) ≤ r.limit)
    ∧ (q.page.bind parseIntJS = none → r.page = 1)
    ∧ (q.limit.bind parseIntJS = none → r.limit = 3) := by
  unfold getAllJob at h
  cases hsl : applySkipLimit ((effPage q - 1) * effLimit q) (effLimit q)
      (sortJobs (effSort q) (store.filter (matchesFilter q))) with
  | error e =>
      rw [hsl] at h
      exact Except.noConfusion h
  | ok jobs =>
      rw [hsl] at h
      have h2 : ({ success := true, total := store.length, page := effPage q,
                   limit := effLimit q, skip := (effPage q - 1) * effLimit q,
                   data := jobs } : ListResponse) = r := Except.ok.inj h
      subst h2
      refine ⟨rfl, rfl, rfl, ?_, ?_, ?_⟩
      · intro hl
        exact applySkipLimit_ok_length _ _ _ _ hsl hl
      · intro hp
        show effPage q = 1
        simp [effPage, hp, jsOrInt]
      · intro hlim
        show effLimit q = 3
        simp [effLimit, hlim, jsOrInt]

/-- C5 witness: the amended theorem at the empty store with no parameters. -/
theorem c5_amended_witness :
    emptyOkResponse.page = effPage {} ∧ emptyOkResponse.limit = effLimit {}
    ∧ emptyOkResponse.skip = (emptyOkResponse.page - 1) * emptyOkResponse.limit
    ∧ (0 < emptyOkResponse.limit → (emptyOkResponse.data.length : Int) ≤ emptyOkResponse.limit)
    ∧ (({} : ListQuery).page.bind parseIntJS = none → emptyOkResponse.page = 1)
    ∧ (({} : ListQuery).limit.bind parseIntJS = none → emptyOkResponse.limit = 3) :=
  c5_amended_pagination [] {} emptyOkResponse rfl

/-- C6: a missing or empty search term behaves as no constraint: the listing
coincides with the location-only query (so the result set, total, and every
metadata field agree), and with a non-negative derived skip the empty pattern
never yields an error. -/
theorem c6_empty_search_is_identity (store : List Job) (q : ListQuery)
    (h : q.search = none ∨ q.search = some "") :
    getAllJob store q = getAllJobLocationOnly store q
    ∧ (0 ≤ (effPage q - 1) * effLimit q → ∃ r, getAllJob store q = Except.ok r) := by
  have hes : effSearch q = "" := by
    rcases h with h | h <;> simp [effSearch, truthyStr, h]
  have hmf : ∀ j ∈ store, matchesFilter q j = locationOnlyMatch q j := by
    intro j _
    unfold matchesFilter locationOnlyMatch
    rw [hes]
    have ht : titleSearchMatch "" j.title = true := by
      unfold titleSearchMatch
      have h0 : lowerList "" = [] := rfl
      rw [h0, isInfixB_nil]
    rw [ht, Bool.and_true]
  have hfl : store.filter (matchesFilter q) = store.filter (locationOnlyMatch q) :=
    List.filter_congr hmf
  constructor
  · unfold getAllJob getAllJobLocationOnly
    rw [hfl]
  · intro hskip
    unfold getAllJob
    obtain ⟨jobs, hj⟩ := applySkipLimit_nonneg_ok ((effPage q - 1) * effLimit q) (effLimit q)
      (sortJobs (effSort q) (store.filter (matchesFilter q))) hskip
    rw [hj]
    exact ⟨_, rfl⟩

/-- C6 witness: the theorem at a one-job store with search supplied as "". -/
theorem c6_empty_search_witness :
    getAllJob [jRemote] qEmptySearch = getAllJobLocationOnly [jRemote] qEmptySearch
    ∧ (0 ≤ (effPage qEmptySearch - 1) * effLimit qEmptySearch →
        ∃ r, getAllJob [jRemote] qEmptySearch = Except.ok r) :=
  c6_empty_search_is_identity [jRemote] qEmptySearch (Or.inr rfl)

/-- C7 counterexample: a body supplying createdAt = 12345 is stored as given
(server time 99999 is ignored), and an update body supplying createdAt
overwrites the stored value — the claimed non-overridability and immutability
are false. -/
theorem c7_counterexample_client_createdAt :
    postJob 99999 1 [] (fun _ => Except.ok ()) [] { title := some "Dev", createdAt := some 12345 }
      = ([clientStampJob], HttpOutcome.ok 201 clientStampJob)
    ∧ clientStampJob.createdAt ≠ 99999
    ∧ (updateJob [clientStampJob] 1 { createdAt := some 777 }).2
        = HttpOutcome.ok 200 { clientStampJob with createdAt := 777 }
    ∧ (777 : Nat) ≠ 12345 :=
  ⟨rfl, by decide, rfl, by decide⟩

/-- C7 amended: createdAt is assigned from the server clock when the request
body omits it, and an update whose body omits createdAt leaves it unchanged;
a client-supplied createdAt, however, is honored at create and at update. -/
theorem c7_amended_createdAt_default (now nextId : Nat) (b : JobBody) (ub : UpdateBody)
    (j : Job) (hb : b.createdAt = none) (hub : ub.createdAt = none)
    (h : createJob now nextId b = Except.ok j) :
    j.createdAt = now ∧ (applyUpdate ub j).createdAt = j.createdAt := by
  constructor
  · unfold createJob at h
    split at h
    · exact Except.noConfusion h
    · split at h
      · exact Except.noConfusion h
      · have h2 := Except.ok.inj h
        subst h2
        simp [hb]
  · unfold applyUpdate
    rw [hub]
    rfl

/-- C7 witness: the amended theorem at server time 5 with a body omitting
createdAt and an empty update body. -/
theorem c7_amended_witness :
    defaultStampJob.createdAt = 5
    ∧ (applyUpdate {} defaultStampJob).createdAt = defaultStampJob.createdAt :=
  c7_amended_createdAt_default 5 1 { title := some "Dev" } {} defaultStampJob rfl rfl rfl

/-- C8: when the job record is stored and the mail transport then fails for
the (sole) employee recipient, the response is 400 with the transport's error
— not the 201 the claim requires — although the job sits in the store. -/
theorem c8_mail_failure_becomes_400 :
    postJob 100 1 [aliceUser] failingSend [] { title := some "Dev" }
      = ([jobDev], HttpOutcome.err 400 "transport down")
    ∧ (400 : Nat) ≠ 201 :=
  ⟨rfl, by decide⟩

/-- C9: createJob enforces the non-empty title (the schema's required
validator), but updateJob runs no validators: updating the body
title = "" succeeds with 200 and stores an empty title, breaking the
invariant the claim asserts for all request bodies. -/
theorem c9_update_breaks_title_invariant :
    createJob 100 2 { title := some "" }
      = Except.error "Jobs validation failed: title: Path title is required."
    ∧ updateJob [jobDev] 1 { title := some "" }
      = ([{ jobDev with title := "" }], HttpOutcome.ok 200 { jobDev with title := "" })
    ∧ ({ jobDev with title := "" } : Job).title = "" :=
  ⟨rfl, rfl, rfl⟩

/-- C10: protect is total over its inputs: for every header shape,
verification result and account-lookup result (faults included), it either
proceeds with a resolved, password-stripped account or itself answers 401;
it never escalates a fault to the process-wide 500 handler. -/
theorem c10_protect_total (verify : String → Except String TokenClaims)
    (findById : Nat → Except String (Option User)) (authHeader : Option String) :
    (∃ u, protect verify findById authHeader = ProtectOutcome.proceed u)
    ∨ (∃ m d, protect verify findById authHeader = ProtectOutcome.reject 401 m d) :=
  protect_outcome verify findById authHeader

end JobBoard
